import Mathlib

/-!
Verification of `bin/build.py` (Debian repository build script of
jump-start-website-debian).

The script is embedded shallowly: the global error counter, the console, the
written files and the external-tool invocations become an explicit state
(`St`), and every fallible step returns `Res α` — either `ok` with a value and
a next state, or `exited code st` when `display_message` terminated the
process via `sys.exit`.  External libraries (hashlib, gzip) and external tools
(dpkg-deb, gpg) are modelled by deterministic Lean functions or by explicit
exit-code parameters; the control flow around them is translated line by line
from the source.
-/

namespace BuildScript

/-- Byte strings: file contents are lists of byte values. -/
abbrev Bytes := List Nat

/-- Message severity, as the script distinguishes it by colour:
green informational output versus orange warnings. -/
inductive Sev where
  | info
  | warning
deriving DecidableEq, Repr

/-- Observable events of a run: a console message, a message printed to the
error stream (`file=sys.stderr`), or an external subprocess invocation with
its argument vector. -/
inductive Event where
  | msg : Sev → String → Event
  | errOut : String → Event
  | subproc : List String → Event
deriving DecidableEq, Repr

/-- The script's mutable world: the global `current_error_level` counter
(initialised to 20 in the source), the file system as an association list
from path to bytes, and the trace of events so far. -/
structure St where
  errorLevel : Nat
  fs : List (String × Bytes)
  events : List Event
deriving DecidableEq, Repr

/-- Result of a step: normal return with a value and the next state, or
process termination (`sys.exit code`) with the state at exit. -/
inductive Res (α : Type) where
  | ok : α → St → Res α
  | exited : Nat → St → Res α
deriving DecidableEq, Repr

/-- Sequencing: a step after an exited step never runs. -/
def Res.andThen {α β : Type} (r : Res α) (f : α → St → Res β) : Res β :=
  match r with
  | Res.ok a s => f a s
  | Res.exited c s => Res.exited c s

/-- The exit code of a result, when the process terminated. -/
def Res.code {α : Type} : Res α → Option Nat
  | Res.ok _ _ => none
  | Res.exited c _ => some c

/-- The final state of a result. -/
def Res.state {α : Type} : Res α → St
  | Res.ok _ s => s
  | Res.exited _ s => s

/-- Association-list lookup (first binding wins, like a Python dict read). -/
def lookupA {α : Type} : List (String × α) → String → Option α
  | [], _ => none
  | (k, v) :: rest, key => if k = key then some v else lookupA rest key

/-- Association-list insert/overwrite (like a Python dict write). -/
def insertA {α : Type} (key : String) (v : α) (l : List (String × α)) :
    List (String × α) :=
  (key, v) :: l.filter (fun e => e.1 ≠ key)

/-- Read a file; `none` models `FileNotFoundError` / `os.path.isfile` false. -/
def readFS (s : St) (path : String) : Option Bytes :=
  lookupA s.fs path

/-- Write a file (create or truncate-and-replace). -/
def writeFS (path : String) (content : Bytes) (s : St) : St :=
  { s with fs := insertA path content s.fs }

/-- Append bytes to a file, creating it empty first when absent
(models sequential `outfile.write` calls on an open handle). -/
def appendFS (path : String) (content : Bytes) (s : St) : St :=
  writeFS path ((readFS s path).getD [] ++ content) s

/-- Record a console message. -/
def logMsg (sev : Sev) (text : String) (s : St) : St :=
  { s with events := s.events ++ [Event.msg sev text] }

/-- Record a message on the error stream. -/
def logErr (text : String) (s : St) : St :=
  { s with events := s.events ++ [Event.errOut text] }

/-- Record an external subprocess invocation. -/
def logSub (argv : List String) (s : St) : St :=
  { s with events := s.events ++ [Event.subproc argv] }

/-- `display_message(error_level, message)` from the source: below 10 prints
green (informational) and returns; 10–19 prints orange (warning) and returns;
20 and above prints red to stderr and calls `sys.exit(error_level - 19)`. -/
def display_message (error_level : Nat) (message : String) (s : St) :
    Res Unit :=
  if error_level < 10 then
    Res.ok () (logMsg Sev.info message s)
  else if error_level < 20 then
    Res.ok () (logMsg Sev.warning message s)
  else
    Res.exited (error_level - 19) (logErr message s)

/-- `get_current_error_level()` from the source: reads the global counter. -/
def get_current_error_level (s : St) : Nat :=
  s.errorLevel

/-- `increment_error_level(increment=1)` from the source: adds `increment`
to the global counter and returns the new value with the new state. -/
def increment_error_level (increment : Nat) (s : St) : Nat × St :=
  let s' := { s with errorLevel := s.errorLevel + increment }
  (s'.errorLevel, s')

/-- State effect of `increment_error_level`. -/
def incr (n : Nat) (s : St) : St :=
  (increment_error_level n s).2

/-- The initial global state: `current_error_level = 20`, a given file
system, no events yet. -/
def initSt (fs : List (String × Bytes)) : St :=
  { errorLevel := 20, fs := fs, events := [] }

/-! ### Model of the external hash library

The script delegates digest computation to Python's `hashlib`
(`md5`/`sha1`/`sha256`/`sha512`).  That library is external to this
repository; the claims only rely on it being a deterministic function of the
byte stream whose digest has the documented size (16/20/32/64 bytes).  We
model each algorithm as a deterministic compression of the byte stream into a
digest of the documented length. -/

/-- Deterministic digest model with output size `n` bytes: byte `i` of the
digest is a fold over the whole stream, seeded by the position. -/
def foldDigest (n : Nat) (bs : Bytes) : Bytes :=
  (List.range n).map
    (fun i => bs.foldl (fun a b => (a * 31 + b + i + 1) % 256) ((i + n) % 256))

/-- Hex character for a value below 16. -/
def hexChar (n : Nat) : Char :=
  if n < 10 then Char.ofNat (48 + n) else Char.ofNat (87 + n)

/-- `hexdigest()`: two lowercase hex characters per digest byte. -/
def hexdigest (bs : Bytes) : String :=
  String.mk (bs.foldr (fun b acc => hexChar (b / 16 % 16) :: hexChar (b % 16) :: acc) [])

/-- The `hash_func_map` dict of `compute_checksum`: the fixed enumeration of
algorithm identifiers, mapped to the digest models (hashlib digest sizes:
md5 16, sha1 20, sha256 32, sha512 64 bytes). -/
def hash_func_map (checksum_type : String) : Option (Bytes → Bytes) :=
  if checksum_type = "MD5Sum" then some (foldDigest 16)
  else if checksum_type = "SHA1" then some (foldDigest 20)
  else if checksum_type = "SHA256" then some (foldDigest 32)
  else if checksum_type = "SHA512" then some (foldDigest 64)
  else none

/-- `compute_checksum(filename, checksum_type)` from the source.
Unknown type: report via `display_message(get_current_error_level(), ...)`
and return `None` (no increment on this path).  Known type: increment, then
try to stream the file (absent file models the caught read exception, again
reported at the current level), increment once more, return the hex digest
(or `None` after a reported failure). -/
def compute_checksum (filename : String) (checksum_type : String) (s : St) :
    Res (Option String) :=
  match hash_func_map checksum_type with
  | none =>
      Res.andThen
        (display_message (get_current_error_level s)
          ("Error: Unknown checksum type " ++ checksum_type ++ "!") s)
        (fun _ s' => Res.ok none s')
  | some hash_func =>
      let s1 := incr 1 s
      match readFS s1 filename with
      | some bs => Res.ok (some (hexdigest (hash_func bs))) (incr 1 s1)
      | none =>
          Res.andThen
            (display_message (get_current_error_level s1)
              ("Error: Failed to compute checksum for " ++ filename ++ ".") s1)
            (fun _ s' => Res.ok none (incr 1 s'))

/-! ### Variable bindings and templates

`variables` is a Python dict mapping names to scalars (strings, ints) or, per
file basename, to `{"checksums": dict, "file_size": int}` records. -/

/-- The per-file record stored by `setup_variables_for_file`:
`{"checksums": {...}, "file_size": n}`. -/
structure FileMeta where
  checksums : List (String × String)
  file_size : Nat
deriving DecidableEq, Repr

/-- A value in the `variables` dict. -/
inductive VarVal where
  | str : String → VarVal
  | num : Nat → VarVal
  | fileRec : FileMeta → VarVal
deriving DecidableEq, Repr

/-- The `variables` dict. -/
abbrev Bindings := List (String × VarVal)

/-- A template line.  The source evaluates each stripped line as a Python
f-string with `variables` in scope; the repository's templates use literal
text, scalar binding references, and nested per-file checksum/size lookups,
so lines are modelled as those substitution forms.  A reference to an absent
binding raises at evaluation, modelled as `none`. -/
inductive TLine where
  | lit : String → TLine
  | scalar : String → String → TLine
  | fileChecksum : String → String → String → TLine
  | fileSize : String → String → TLine
deriving DecidableEq, Repr

/-- Render a scalar value the way an f-string would. -/
def VarVal.asText : VarVal → String
  | VarVal.str v => v
  | VarVal.num n => toString n
  | VarVal.fileRec _ => "record"

/-- Evaluate one template line against the bindings; `none` models the
exception raised by an undefined or ill-typed reference. -/
def TLine.render (l : TLine) (vars : Bindings) : Option String :=
  match l with
  | TLine.lit text => some text
  | TLine.scalar pre key =>
      match lookupA vars key with
      | some v => some (pre ++ v.asText)
      | none => none
  | TLine.fileChecksum pre base alg =>
      match lookupA vars base with
      | some (VarVal.fileRec m) =>
          match lookupA m.checksums alg with
          | some d => some (pre ++ d)
          | none => none
      | _ => none
  | TLine.fileSize pre base =>
      match lookupA vars base with
      | some (VarVal.fileRec m) => some (pre ++ toString m.file_size)
      | _ => none

/-- Encode a text line as file bytes (each char's code point, as the script
writes `processed_line + "\n"`). -/
def strBytes (text : String) : Bytes :=
  text.toList.map Char.toNat

/-- Encode rendered lines as the written file bytes, one trailing newline
(byte 10) per line. -/
def linesToBytes (ls : List String) : Bytes :=
  ls.foldr (fun l acc => strBytes l ++ [10] ++ acc) []

/-- Decode file bytes back into lines (split on byte 10). -/
def bytesToLines (bs : Bytes) : List String :=
  (bs.splitOn 10).map (fun l => String.mk (l.map Char.ofNat))

/-- Number of lines of a text file equal to `target` (the trailing empty
chunk after the final newline never matches a non-empty target). -/
def countLine (target : String) (bs : Bytes) : Nat :=
  (bytesToLines bs).count target

/-! ### setup_variables_for_file / setup_variables_for_files -/

/-- `Path(filename).name`: the basename after the last slash. -/
def basename (p : String) : String :=
  (p.splitOn "/").getLastD p

/-- The body of the `for checksum_type in checksum_types` loop of
`setup_variables_for_file`: store the checksum under
`variables[basename]["checksums"][checksum_type]` when computation returned
one. -/
def addChecksum (base typ c : String) (vars : Bindings) : Bindings :=
  match lookupA vars base with
  | some (VarVal.fileRec m) =>
      insertA base
        (VarVal.fileRec { m with checksums := insertA typ c m.checksums }) vars
  | _ => vars

/-- The checksum loop of `setup_variables_for_file`, threading state and
bindings through `compute_checksum` for each algorithm in order. -/
def checksumLoop (filename base : String) :
    List String → Bindings → St → Res Bindings
  | [], vars, s => Res.ok vars s
  | t :: ts, vars, s =>
      match compute_checksum filename t s with
      | Res.ok (some c) s' => checksumLoop filename base ts (addChecksum base t c vars) s'
      | Res.ok none s' => checksumLoop filename base ts vars s'
      | Res.exited code s' => Res.exited code s'

/-- `setup_variables_for_file(filename, variables)` from the source: report a
missing file at the current level and return; otherwise increment, take the
file size (`os.path.getsize`, modelled as the byte length — it cannot fail
once the file exists in the model), increment, seed
`variables[basename] = {"checksums": {}, "file_size": size}`, then run the
four checksum computations. -/
def setup_variables_for_file (filename : String) (vars : Bindings) (s : St) :
    Res Bindings :=
  match readFS s filename with
  | none =>
      Res.andThen
        (display_message (get_current_error_level s)
          ("Error: File " ++ filename ++ " not found!") s)
        (fun _ s' => Res.ok vars s')
  | some bs =>
      let s1 := incr 1 s
      let s2 := incr 1 s1
      let base := basename filename
      let vars1 :=
        insertA base (VarVal.fileRec { checksums := [], file_size := bs.length }) vars
      checksumLoop filename base ["MD5Sum", "SHA1", "SHA256", "SHA512"] vars1 s2

/-- `setup_variables_for_files(file_names, variables)` from the source:
process each file in order. -/
def setup_variables_for_files :
    List String → Bindings → St → Res Bindings
  | [], vars, s => Res.ok vars s
  | f :: rest, vars, s =>
      match setup_variables_for_file f vars s with
      | Res.ok vars' s' => setup_variables_for_files rest vars' s'
      | Res.exited c s' => Res.exited c s'

/-! ### Model of the external gzip library

`gzip_file` copies the source bytes through `gzip.open(..., "wb")`; the
compression format is external to this repository, and the claims rely only
on it being lossless.  It is modelled as an injective framing of the payload
with an explicit decompression inverse. -/

/-- Compression model: gzip magic bytes framing the payload. -/
def gzipCompress (bs : Bytes) : Bytes :=
  31 :: 139 :: bs.length :: bs

/-- Decompression model: strip and check the frame. -/
def gzipDecompress : Bytes → Option Bytes
  | 31 :: 139 :: n :: rest => if rest.length = n then some rest else none
  | _ => none

/-- `gzip_file(source_file, debian_package_file)` from the source: stream the
source file into the compressed target; a failure (absent source models the
caught exception) is reported at the current level; the trailing
`increment_error_level()` runs on both paths. -/
def gzip_file (source_file debian_package_file : String) (s : St) : Res Unit :=
  match readFS s source_file with
  | some bs =>
      Res.ok () (incr 1 (writeFS debian_package_file (gzipCompress bs) s))
  | none =>
      Res.andThen
        (display_message (get_current_error_level s)
          ("Error: Failed to compress " ++ source_file ++ ".") s)
        (fun _ s' => Res.ok () (incr 1 s'))

/-! ### process_template -/

/-- Template store: template path → parsed lines (the template files live
beside the script, outside the byte file system the pipeline writes to). -/
abbrev Templates := List (String × List TLine)

/-- The per-line loop of `process_template`: evaluate each line; on success
write it (with a newline) to the open output file; on exception report via
`display_message(get_current_error_level(), ...)` and — when that call
returns — continue with the remaining lines. -/
def processLines (output_filename : String) (vars : Bindings) :
    List TLine → St → Res Unit
  | [], s => Res.ok () s
  | l :: rest, s =>
      match TLine.render l vars with
      | some line =>
          processLines output_filename vars rest
            (appendFS output_filename (strBytes line ++ [10]) s)
      | none =>
          match
            display_message (get_current_error_level s)
              ("Error processing line: " ++ toString (repr l)) s with
          | Res.ok _ s' => processLines output_filename vars rest s'
          | Res.exited c s' => Res.exited c s'

/-- `process_template(template_filename, output_filename, variables)` from
the source: a missing template file is the caught `FileNotFoundError`,
reported at the current level; otherwise the output file is opened for
writing (truncated) and the lines are processed one by one.  The trailing
`increment_error_level(2)` runs when control reaches the end. -/
def process_template (templates : Templates)
    (template_filename output_filename : String) (vars : Bindings) (s : St) :
    Res Unit :=
  match lookupA templates template_filename with
  | none =>
      Res.andThen
        (display_message (get_current_error_level s)
          ("Error: Template file " ++ template_filename ++ " not found!") s)
        (fun _ s' => Res.ok () (incr 2 s'))
  | some lines =>
      Res.andThen (processLines output_filename vars lines (writeFS output_filename [] s))
        (fun _ s' => Res.ok () (incr 2 s'))

/-! ### build_release_file and the signing step -/

/-- Truthiness of the `gpg_key` argument (`argparse` yields `None` when the
flag and the `GPG_KEY` environment variable are both absent; `not gpg_key`
is true for `None` and for the empty string). -/
def keyTruthy : Option String → Bool
  | none => false
  | some k => k ≠ ""

/-- The key string handed to the subprocess argument vector. -/
def keyText : Option String → String
  | none => "None"
  | some k => k

/-- Model of the external signing tool's output: the clearsigned file wraps
the descriptor bytes between an armour header and an inline signature
block. -/
def clearsignModel (body : Bytes) : Bytes :=
  strBytes "-----BEGIN PGP SIGNED MESSAGE-----" ++ [10] ++ body
    ++ strBytes "-----BEGIN PGP SIGNATURE-----" ++ [10]

/-- Lines 388–405 of the source, the signing step of `build_release_file`:
a falsy key is reported at the current level (fatal when the level is ≥ 20);
otherwise gpg is invoked once with `--clearsign` writing `inrelease_file`
(`gpgExit` is the external tool's exit code; `check=True` turns a non-zero
exit into the caught `CalledProcessError`, reported at the current level).
The trailing `increment_error_level()` runs when control reaches it. -/
def sign_release (gpg_key : Option String)
    (release_file inrelease_file : String) (gpgExit : Nat) (s : St) :
    Res Unit :=
  Res.andThen
    (if keyTruthy gpg_key then Res.ok () s
     else
       display_message (get_current_error_level s)
         ("No GPG key can't sign " ++ release_file ++ ".") s)
    (fun _ s0 =>
      Res.andThen (display_message 0 ("Signing " ++ release_file ++ "...") s0)
        (fun _ s1 =>
          let s2 := logSub ["gpg", "--default-key", keyText gpg_key,
            "--clearsign", "-o", inrelease_file, release_file] s1
          if gpgExit = 0 then
            let s3 :=
              writeFS inrelease_file
                (clearsignModel ((readFS s2 release_file).getD [])) s2
            Res.andThen
              (display_message 0
                ("Successfully signed " ++ release_file ++ " into "
                  ++ inrelease_file) s3)
              (fun _ s4 => Res.ok () (incr 1 s4))
          else
            Res.andThen
              (display_message (get_current_error_level s2)
                "Error signing Release file" s2)
              (fun _ s3 => Res.ok () (incr 1 s3))))

/-- `build_release_file(...)` from the source: announce, compute checksums of
the release's files, render the Release template, increment, announce
success, then run the signing step. -/
def build_release_file (templates : Templates)
    (release_template release_file inrelease_file : String)
    (files : List String) (gpg_key : Option String) (gpgExit : Nat)
    (vars : Bindings) (s : St) : Res Bindings :=
  Res.andThen (display_message 0 ("Building " ++ release_file ++ "...") s)
    (fun _ s0 =>
      Res.andThen (setup_variables_for_files files vars s0)
        (fun vars' s1 =>
          Res.andThen (process_template templates release_template release_file vars' s1)
            (fun _ s2 =>
              let s3 := incr 1 s2
              Res.andThen
                (display_message 0 (release_file ++ " built successfully.") s3)
                (fun _ s4 =>
                  Res.andThen
                    (sign_release gpg_key release_file inrelease_file gpgExit s4)
                    (fun _ s5 => Res.ok vars' s5)))))

/-! ### build_debian_package, build_package_file and the main stage order -/

/-- `build_debian_package(debian_package_file)` from the source: announce;
remove a pre-existing package file (announcing the removal — removal cannot
fail in the model); increment; invoke `dpkg-deb --build` (on exit code 0 the
external tool writes the package bytes `dpkgOut`, otherwise the failure is
reported at the current level); increment. -/
def build_debian_package (debian_package_file : String)
    (dpkgExit : Nat) (dpkgOut : Bytes) (s : St) : Res Unit :=
  Res.andThen
    (display_message 0 ("Building " ++ debian_package_file ++ "...") s)
    (fun _ s0 =>
      let s1 :=
        match readFS s0 debian_package_file with
        | some _ =>
            logMsg Sev.info ("Removed existing package: " ++ debian_package_file)
              { s0 with fs := s0.fs.filter (fun e => e.1 ≠ debian_package_file) }
        | none => s0
      let s2 := incr 1 s1
      let s3 := logSub ["dpkg-deb", "--build", "distribution", debian_package_file] s2
      if dpkgExit = 0 then
        Res.andThen
          (display_message 0
            ("Package " ++ debian_package_file ++ " built successfully.")
            (writeFS debian_package_file dpkgOut s3))
          (fun _ s4 => Res.ok () (incr 1 s4))
      else
        Res.andThen
          (display_message (get_current_error_level s3) "Build failed" s3)
          (fun _ s4 => Res.ok () (incr 1 s4)))

/-- `build_package_file(...)` from the source: announce, compute the package
artifact's checksums and size, render the Packages template, then — when the
Packages file exists — announce and gzip it; otherwise report at the current
level.  The trailing `increment_error_level()` runs when control reaches
it. -/
def build_package_file (templates : Templates)
    (packages_template packages_file packages_gz_file debian_package_file : String)
    (vars : Bindings) (s : St) : Res Bindings :=
  Res.andThen (display_message 0 ("Building " ++ packages_file ++ "...") s)
    (fun _ s0 =>
      Res.andThen (setup_variables_for_file debian_package_file vars s0)
        (fun vars' s1 =>
          Res.andThen
            (process_template templates packages_template packages_file vars' s1)
            (fun _ s2 =>
              Res.andThen
                (match readFS s2 packages_file with
                 | some _ =>
                     Res.andThen
                       (display_message 0 (packages_file ++ " built successfully.") s2)
                       (fun _ sa =>
                         Res.andThen
                           (display_message 0 ("Building " ++ packages_gz_file ++ "...") sa)
                           (fun _ sb =>
                             Res.andThen (gzip_file packages_file packages_gz_file sb)
                               (fun _ sc =>
                                 display_message 0
                                   (packages_gz_file ++ " built successfully.") sc)))
                 | none =>
                     display_message (get_current_error_level s2)
                       ("Could not create " ++ packages_file ++ "!") s2)
                (fun _ s3 => Res.ok vars' (incr 1 s3)))))

/-- The start of `main()` in the source's stage order: the opening
announcement, then `build_debian_package` — skipped entirely when the caller
passed `--no-build` — then `build_package_file`. -/
def mainStages (buildFlag : Bool) (templates : Templates)
    (packages_template packages_file packages_gz_file debian_package_file : String)
    (dpkgExit : Nat) (dpkgOut : Bytes) (vars : Bindings) (s : St) :
    Res Bindings :=
  Res.andThen (display_message 0 "Building Package..." s)
    (fun _ s0 =>
      Res.andThen
        (if buildFlag then
          build_debian_package debian_package_file dpkgExit dpkgOut s0
         else Res.ok () s0)
        (fun _ s1 =>
          build_package_file templates packages_template packages_file
            packages_gz_file debian_package_file vars s1))

/-! ### Basic lemmas about the state model -/

theorem lookupA_insertA_self {α : Type} (k : String) (v : α)
    (l : List (String × α)) : lookupA (insertA k v l) k = some v := by
  simp [insertA, lookupA]

theorem lookupA_filter_ne {α : Type} (k q : String) (l : List (String × α))
    (h : q ≠ k) :
    lookupA (l.filter (fun e => e.1 ≠ k)) q = lookupA l q := by
  induction l with
  | nil => rfl
  | cons e rest ih =>
      obtain ⟨a, b⟩ := e
      rw [List.filter_cons]
      by_cases ha : a = k
      · rw [if_neg (by simp [ha])]
        have hne : ¬ a = q := fun hq => h (hq ▸ ha)
        simp only [lookupA]
        rw [if_neg hne]
        exact ih
      · rw [if_pos (by simp [ha])]
        simp only [lookupA]
        by_cases haq : a = q
        · rw [if_pos haq, if_pos haq]
        · rw [if_neg haq, if_neg haq]
          exact ih

theorem lookupA_insertA_ne {α : Type} (k q : String) (v : α)
    (l : List (String × α)) (h : q ≠ k) :
    lookupA (insertA k v l) q = lookupA l q := by
  unfold insertA
  simp only [lookupA]
  rw [if_neg (fun hk : k = q => h hk.symm)]
  exact lookupA_filter_ne k q l h

theorem insertA_insertA {α : Type} (k : String) (v1 v2 : α)
    (l : List (String × α)) :
    insertA k v2 (insertA k v1 l) = insertA k v2 l := by
  simp [insertA, List.filter_filter]

theorem readFS_writeFS_self (p : String) (v : Bytes) (s : St) :
    readFS (writeFS p v s) p = some v :=
  lookupA_insertA_self p v s.fs

theorem readFS_writeFS_ne (p q : String) (v : Bytes) (s : St) (h : q ≠ p) :
    readFS (writeFS p v s) q = readFS s q :=
  lookupA_insertA_ne p q v s.fs h

theorem readFS_incr (n : Nat) (s : St) (p : String) :
    readFS (incr n s) p = readFS s p := rfl

theorem readFS_logMsg (sev : Sev) (m : String) (s : St) (p : String) :
    readFS (logMsg sev m s) p = readFS s p := rfl

theorem readFS_logSub (argv : List String) (s : St) (p : String) :
    readFS (logSub argv s) p = readFS s p := rfl

theorem errorLevel_incr (n : Nat) (s : St) :
    (incr n s).errorLevel = s.errorLevel + n := rfl

theorem errorLevel_writeFS (p : String) (v : Bytes) (s : St) :
    (writeFS p v s).errorLevel = s.errorLevel := rfl

theorem errorLevel_appendFS (p : String) (v : Bytes) (s : St) :
    (appendFS p v s).errorLevel = s.errorLevel := rfl

theorem events_writeFS (p : String) (v : Bytes) (s : St) :
    (writeFS p v s).events = s.events := rfl

theorem events_appendFS (p : String) (v : Bytes) (s : St) :
    (appendFS p v s).events = s.events := rfl

theorem events_incr (n : Nat) (s : St) : (incr n s).events = s.events := rfl

theorem fs_incr (n : Nat) (s : St) : (incr n s).fs = s.fs := rfl

theorem errorLevel_logMsg (sev : Sev) (m : String) (s : St) :
    (logMsg sev m s).errorLevel = s.errorLevel := rfl

theorem errorLevel_logErr (m : String) (s : St) :
    (logErr m s).errorLevel = s.errorLevel := rfl

theorem errorLevel_logSub (argv : List String) (s : St) :
    (logSub argv s).errorLevel = s.errorLevel := rfl

/-! ### Rendering a whole template -/

/-- Evaluate every line of a template against the bindings: `some` of the
rendered lines when all of them substitute, `none` as soon as one raises. -/
def renderAll (vars : Bindings) : List TLine → Option (List String)
  | [] => some []
  | l :: rest =>
      match TLine.render l vars, renderAll vars rest with
      | some y, some ys => some (y :: ys)
      | _, _ => none

/-! ### Digest lengths and the successful checksum path -/

theorem foldDigest_length (n : Nat) (bs : Bytes) :
    (foldDigest n bs).length = n := by
  simp [foldDigest]

theorem hexdigest_length (bs : Bytes) :
    (hexdigest bs).length = 2 * bs.length := by
  have h : ∀ l : Bytes,
      (l.foldr (fun b acc => hexChar (b / 16 % 16) :: hexChar (b % 16) :: acc)
        []).length = 2 * l.length := by
    intro l
    induction l with
    | nil => rfl
    | cons b rest ih =>
        simp only [List.foldr, List.length, List.length_cons, ih]
        omega
  exact h bs

theorem hash_func_map_md5 : hash_func_map "MD5Sum" = some (foldDigest 16) := rfl

theorem hash_func_map_sha1 : hash_func_map "SHA1" = some (foldDigest 20) := rfl

theorem hash_func_map_sha256 : hash_func_map "SHA256" = some (foldDigest 32) := rfl

theorem hash_func_map_sha512 : hash_func_map "SHA512" = some (foldDigest 64) := rfl

/-- The digest `compute_checksum` produces on its successful path, as a pure
function of the algorithm identifier and the file bytes. -/
def digestOf (alg : String) (bs : Bytes) : String :=
  match hash_func_map alg with
  | some hash_func => hexdigest (hash_func bs)
  | none => ""

/-- Success path of `compute_checksum`: a known algorithm on a readable file
returns the digest of the file's bytes and advances the error counter by
two. -/
theorem compute_checksum_ok (filename alg : String) (bs : Bytes) (s : St)
    (hfs : readFS s filename = some bs)
    (halg : (hash_func_map alg).isSome) :
    compute_checksum filename alg s =
      Res.ok (some (digestOf alg bs))
        { s with errorLevel := s.errorLevel + 2 } := by
  obtain ⟨hf, hhf⟩ : ∃ hf, hash_func_map alg = some hf :=
    Option.isSome_iff_exists.mp halg
  have hread : readFS (incr 1 s) filename = some bs := hfs
  simp only [compute_checksum, hhf, hread, digestOf]
  rfl

/-- The per-file record as a pure function of the file bytes: all four
digests (in the insertion order of the checksum loop) plus the byte size. -/
def metaPure (bs : Bytes) : FileMeta :=
  { checksums :=
      insertA "SHA512" (digestOf "SHA512" bs)
        (insertA "SHA256" (digestOf "SHA256" bs)
          (insertA "SHA1" (digestOf "SHA1" bs)
            (insertA "MD5Sum" (digestOf "MD5Sum" bs) []))),
    file_size := bs.length }

/-- Success path of `setup_variables_for_file`: an existing file binds its
basename to the full digest record, advances the counter by ten (two stat
steps plus two per algorithm) and leaves the file system and the event trace
unchanged. -/
theorem setup_variables_for_file_ok (filename : String) (bs : Bytes)
    (vars : Bindings) (s : St) (hfs : readFS s filename = some bs) :
    setup_variables_for_file filename vars s =
      Res.ok
        (insertA (basename filename) (VarVal.fileRec (metaPure bs)) vars)
        { s with errorLevel := s.errorLevel + 10 } := by
  obtain ⟨el, fsx, ev⟩ := s
  have hfs' : lookupA fsx filename = some bs := hfs
  simp only [setup_variables_for_file, readFS, hfs', checksumLoop, compute_checksum,
    hash_func_map_md5, hash_func_map_sha1, hash_func_map_sha256, hash_func_map_sha512,
    incr, increment_error_level, get_current_error_level, digestOf,
    addChecksum, lookupA_insertA_self, insertA_insertA, metaPure,
    Res.ok.injEq, St.mk.injEq]

/-! ### Helper characterisations of display_message -/

theorem display_message_info (m : String) (s : St) :
    display_message 0 m s = Res.ok () (logMsg Sev.info m s) := by
  unfold display_message
  rw [if_pos (by omega)]

theorem display_message_fatal (lvl : Nat) (m : String) (s : St)
    (h : 20 ≤ lvl) :
    display_message lvl m s = Res.exited (lvl - 19) (logErr m s) := by
  unfold display_message
  rw [if_neg (by omega), if_neg (by omega)]

/-! ### Behaviour of the template renderer -/

theorem processLines_ok (out : String) (vars : Bindings) :
    ∀ (lines : List TLine) (L : List String) (s : St) (c : Bytes),
      renderAll vars lines = some L → readFS s out = some c →
      ∃ s', processLines out vars lines s = Res.ok () s' ∧
        readFS s' out = some (c ++ linesToBytes L) ∧
        (∀ q, q ≠ out → readFS s' q = readFS s q) ∧
        s'.events = s.events ∧ s'.errorLevel = s.errorLevel := by
  intro lines
  induction lines with
  | nil =>
      intro L s c hr hc
      obtain rfl : L = [] := by simpa [renderAll] using hr.symm
      exact ⟨s, rfl, by simpa [linesToBytes] using hc, fun q _ => rfl, rfl, rfl⟩
  | cons l rest ih =>
      intro L s c hr hc
      cases hl : TLine.render l vars with
      | none => simp [renderAll, hl] at hr
      | some y =>
          cases hrest : renderAll vars rest with
          | none => simp [renderAll, hl, hrest] at hr
          | some ys =>
              obtain rfl : L = y :: ys := by
                rw [renderAll, hl, hrest] at hr
                exact (Option.some_inj.mp hr).symm
              have hc' : readFS (appendFS out (strBytes y ++ [10]) s) out =
                  some (c ++ (strBytes y ++ [10])) := by
                simp [appendFS, hc, readFS_writeFS_self]
              obtain ⟨s', h1, h2, h3, h4, h5⟩ :=
                ih ys (appendFS out (strBytes y ++ [10]) s)
                  (c ++ (strBytes y ++ [10])) hrest hc'
              refine ⟨s', ?_, ?_, ?_, ?_, ?_⟩
              · simp only [processLines, hl, h1]
              · rw [h2]
                simp [linesToBytes, List.append_assoc]
              · intro q hq
                rw [h3 q hq]
                exact readFS_writeFS_ne out q _ s hq
              · rw [h4]
                rfl
              · rw [h5]
                rfl

theorem processLines_aborts (out : String) (vars : Bindings) (bad : TLine)
    (post : List TLine) (hbad : TLine.render bad vars = none) :
    ∀ (pre : List TLine) (L : List String) (s : St) (c : Bytes),
      renderAll vars pre = some L → readFS s out = some c →
      20 ≤ s.errorLevel →
      ∃ s', processLines out vars (pre ++ bad :: post) s =
          Res.exited (s.errorLevel - 19) s' ∧
        readFS s' out = some (c ++ linesToBytes L) ∧
        s'.events = s.events ++
          [Event.errOut ("Error processing line: " ++ toString (repr bad))] ∧
        s'.errorLevel = s.errorLevel := by
  intro pre
  induction pre with
  | nil =>
      intro L s c hr hc hl
      obtain rfl : L = [] := by simpa [renderAll] using hr.symm
      refine ⟨logErr ("Error processing line: " ++ toString (repr bad)) s, ?_,
        by simpa [linesToBytes] using hc, rfl, rfl⟩
      simp only [List.nil_append, processLines, hbad, get_current_error_level,
        display_message_fatal s.errorLevel _ s hl]
  | cons l pre' ih =>
      intro L s c hr hc hl
      cases hl' : TLine.render l vars with
      | none => simp [renderAll, hl'] at hr
      | some y =>
          cases hrest : renderAll vars pre' with
          | none => simp [renderAll, hl', hrest] at hr
          | some ys =>
              obtain rfl : L = y :: ys := by
                rw [renderAll, hl', hrest] at hr
                exact (Option.some_inj.mp hr).symm
              have hc' : readFS (appendFS out (strBytes y ++ [10]) s) out =
                  some (c ++ (strBytes y ++ [10])) := by
                simp [appendFS, hc, readFS_writeFS_self]
              obtain ⟨s', h1, h2, h3, h4⟩ :=
                ih ys (appendFS out (strBytes y ++ [10]) s)
                  (c ++ (strBytes y ++ [10])) hrest hc' hl
              refine ⟨s', ?_, ?_, ?_, ?_⟩
              · rw [List.cons_append]
                simp only [processLines, hl']
                exact h1
              · rw [h2]
                simp [linesToBytes, List.append_assoc]
              · rw [h3]
                rfl
              · rw [h4]
                rfl

theorem process_template_ok (templates : Templates) (tname oname : String)
    (vars : Bindings) (lines : List TLine) (L : List String) (s : St)
    (ht : lookupA templates tname = some lines)
    (hr : renderAll vars lines = some L) :
    ∃ s', process_template templates tname oname vars s = Res.ok () s' ∧
      readFS s' oname = some (linesToBytes L) ∧
      (∀ q, q ≠ oname → readFS s' q = readFS s q) ∧
      s'.events = s.events ∧
      s'.errorLevel = s.errorLevel + 2 := by
  have h0 : readFS (writeFS oname [] s) oname = some [] :=
    readFS_writeFS_self oname [] s
  obtain ⟨s1, h1, h2, h3, h4, h5⟩ :=
    processLines_ok oname vars lines L (writeFS oname [] s) [] hr h0
  refine ⟨incr 2 s1, ?_, ?_, ?_, ?_, ?_⟩
  · simp only [process_template, ht, h1, Res.andThen]
  · rw [readFS_incr]
    simpa using h2
  · intro q hq
    rw [readFS_incr, h3 q hq]
    exact readFS_writeFS_ne oname q [] s hq
  · rw [events_incr, h4]
    rfl
  · rw [errorLevel_incr, h5]
    rfl

/-! ### Multi-file checksum setup -/

theorem setup_variables_for_files_ok (files : List String) :
    ∀ (vars : Bindings) (s : St),
      (∀ f ∈ files, ∃ bs, readFS s f = some bs) →
      ∃ vars', setup_variables_for_files files vars s =
        Res.ok vars' { s with errorLevel := s.errorLevel + 10 * files.length } := by
  induction files with
  | nil =>
      intro vars s _
      exact ⟨vars, rfl⟩
  | cons f rest ih =>
      intro vars s h
      obtain ⟨el, fsx, ev⟩ := s
      obtain ⟨bs, hbs⟩ := h f (by simp)
      have hrest : ∀ g ∈ rest,
          ∃ bsg, readFS (St.mk (el + 10) fsx ev) g = some bsg :=
        fun g hg => h g (by simp [hg])
      obtain ⟨vars2, hv⟩ :=
        ih (insertA (basename f) (VarVal.fileRec (metaPure bs)) vars)
          (St.mk (el + 10) fsx ev) hrest
      refine ⟨vars2, ?_⟩
      simp only [setup_variables_for_files,
        setup_variables_for_file_ok f bs vars (St.mk el fsx ev) hbs]
      rw [hv]
      simp only [Res.ok.injEq, St.mk.injEq, and_true, true_and,
        List.length_cons]
      omega

/-- Fatal path of the checksum setup: the first absent file is reported —
the message names that file — and the process exits immediately; the
remaining files are never touched. -/
theorem setup_variables_for_files_aborts (f : String) (rest : List String)
    (vars : Bindings) (s : St) (hmiss : readFS s f = none)
    (hl : 20 ≤ s.errorLevel) :
    setup_variables_for_files (f :: rest) vars s =
      Res.exited (s.errorLevel - 19)
        (logErr ("Error: File " ++ f ++ " not found!") s) := by
  simp only [setup_variables_for_files, setup_variables_for_file, hmiss,
    get_current_error_level, display_message_fatal s.errorLevel _ s hl,
    Res.andThen]

/-! ### The signing step -/

/-- Fatal path of the signing step: a falsy key is reported at the current
(fatal) level and the process exits; the only event recorded is the error
message — in particular no subprocess is spawned. -/
theorem sign_release_falsy_key (gpg_key : Option String)
    (release_file inrelease_file : String) (gpgExit : Nat) (s : St)
    (hk : keyTruthy gpg_key = false) (hl : 20 ≤ s.errorLevel) :
    sign_release gpg_key release_file inrelease_file gpgExit s =
      Res.exited (s.errorLevel - 19)
        (logErr ("No GPG key can't sign " ++ release_file ++ ".") s) := by
  unfold sign_release
  rw [if_neg (by simp [hk])]
  simp only [get_current_error_level, display_message_fatal s.errorLevel _ s hl,
    Res.andThen]

/-- Success path of the signing step: a truthy key and a zero gpg exit code
record exactly three events — the announcement, the single gpg clearsign
invocation, and the success message — write the clearsigned InRelease file,
and advance the counter by one. -/
theorem sign_release_ok (k : String) (release_file inrelease_file : String)
    (hk : k ≠ "") (s : St) :
    sign_release (some k) release_file inrelease_file 0 s =
      Res.ok ()
        (incr 1
          (logMsg Sev.info
            ("Successfully signed " ++ release_file ++ " into " ++ inrelease_file)
            (writeFS inrelease_file
              (clearsignModel ((readFS s release_file).getD []))
              (logSub ["gpg", "--default-key", k, "--clearsign", "-o",
                inrelease_file, release_file]
                (logMsg Sev.info ("Signing " ++ release_file ++ "...") s))))) := by
  have hkt : keyTruthy (some k) = true := by simp [keyTruthy, hk]
  simp only [sign_release, hkt, if_pos, Res.andThen, display_message_info,
    keyText]
  rfl

/-! ### Package-build and stage-order lemmas -/

/-- Success path of `build_debian_package` with a pre-existing package file
and a zero dpkg-deb exit code: the old file is removed and announced, dpkg
is invoked once writing the new package bytes, and the counter advances by
two. -/
theorem build_debian_package_ok (deb : String) (o bs0 : Bytes) (s : St)
    (hdeb : readFS s deb = some bs0) :
    build_debian_package deb 0 o s =
      Res.ok ()
        (incr 1 (logMsg Sev.info ("Package " ++ deb ++ " built successfully.")
          (writeFS deb o
            (logSub ["dpkg-deb", "--build", "distribution", deb]
              (incr 1
                (logMsg Sev.info ("Removed existing package: " ++ deb)
                  { (logMsg Sev.info ("Building " ++ deb ++ "...") s) with
                    fs := (logMsg Sev.info ("Building " ++ deb ++ "...") s).fs.filter
                      (fun e => e.1 ≠ deb) })))))) := by
  have hdeb' : readFS (logMsg Sev.info ("Building " ++ deb ++ "...") s) deb =
      some bs0 := hdeb
  simp only [build_debian_package, Res.andThen, display_message_info, hdeb']
  rfl

/-- Fatal path of `build_package_file` when the Packages template is absent:
the checksum setup advances the counter by ten, then the missing template is
reported at the advanced level and the process exits with that level minus
nineteen. -/
theorem build_package_file_no_template (templates : Templates)
    (pt pf pgz deb : String) (vars : Bindings) (s : St) (bs : Bytes)
    (hdeb : readFS s deb = some bs)
    (ht : lookupA templates pt = none)
    (hl : 20 ≤ s.errorLevel) :
    (build_package_file templates pt pf pgz deb vars s).code =
      some (s.errorLevel + 10 - 19) := by
  have hdeb' : readFS (logMsg Sev.info ("Building " ++ pf ++ "...") s) deb =
      some bs := hdeb
  simp only [build_package_file, Res.andThen, display_message_info,
    setup_variables_for_file_ok deb bs vars
      (logMsg Sev.info ("Building " ++ pf ++ "...") s) hdeb',
    process_template, ht, get_current_error_level, errorLevel_logMsg]
  rw [display_message_fatal _ _ _ (by simp [errorLevel_logMsg]; omega)]
  rfl

theorem build_debian_package_ok_ex (deb : String) (o bs0 : Bytes) (s : St)
    (hdeb : readFS s deb = some bs0) :
    ∃ s', build_debian_package deb 0 o s = Res.ok () s' ∧
      readFS s' deb = some o ∧ s'.errorLevel = s.errorLevel + 2 :=
  ⟨_, build_debian_package_ok deb o bs0 s hdeb,
    by simp [readFS_incr, readFS_logMsg, readFS_writeFS_self], rfl⟩

/-- Whether an event is an external subprocess invocation. -/
def isSubproc : Event → Bool
  | Event.subproc _ => true
  | _ => false

/-! ### Claims -/

/-- Claim C10: display_message partitions severity by a fixed threshold —
below 10 prints informational and returns, 10 through 19 prints a warning
and returns, 20 or more prints to the error stream and terminates with exit
code error_level − 19; the global counter starts at 20 and
increment_error_level only ever grows it, so every fatal exit code is at
least 1, and no call below level 20 terminates the process. -/
theorem claim_C10 (error_level : Nat) (message : String) (s : St) :
    (error_level < 10 →
      display_message error_level message s =
        Res.ok () (logMsg Sev.info message s)) ∧
    (10 ≤ error_level → error_level < 20 →
      display_message error_level message s =
        Res.ok () (logMsg Sev.warning message s)) ∧
    (20 ≤ error_level →
      display_message error_level message s =
        Res.exited (error_level - 19) (logErr message s) ∧
      1 ≤ error_level - 19) ∧
    (initSt []).errorLevel = 20 ∧
    (∀ inc : Nat,
      get_current_error_level s ≤ (increment_error_level inc s).1) := by
  refine ⟨?_, ?_, ?_, rfl, ?_⟩
  · intro h
    unfold display_message
    rw [if_pos h]
  · intro h1 h2
    unfold display_message
    rw [if_neg (by omega), if_pos h2]
  · intro h
    exact ⟨display_message_fatal _ _ _ h, by omega⟩
  · intro inc
    simp [get_current_error_level, increment_error_level]

/-- Witness for C10 at the three concrete levels 5, 15 and 25. -/
theorem claim_C10_witness :
    display_message 5 "a" (initSt []) =
      Res.ok () (logMsg Sev.info "a" (initSt [])) ∧
    display_message 15 "b" (initSt []) =
      Res.ok () (logMsg Sev.warning "b" (initSt [])) ∧
    display_message 25 "c" (initSt []) =
      Res.exited 6 (logErr "c" (initSt [])) :=
  ⟨(claim_C10 5 "a" (initSt [])).1 (by omega),
   (claim_C10 15 "b" (initSt [])).2.1 (by omega) (by omega),
   ((claim_C10 25 "c" (initSt [])).2.2.1 (by omega)).1⟩

/-- Claim C8: for every valid algorithm identifier in the fixed enumeration
and every readable file, the hex digest returned by compute_checksum has
length 32, 40, 64 or 128 characters respectively. -/
theorem claim_C8 (filename : String) (bs : Bytes) (s : St)
    (hfs : readFS s filename = some bs) :
    (∃ d, compute_checksum filename "MD5Sum" s =
        Res.ok (some d) { s with errorLevel := s.errorLevel + 2 } ∧
      d.length = 32) ∧
    (∃ d, compute_checksum filename "SHA1" s =
        Res.ok (some d) { s with errorLevel := s.errorLevel + 2 } ∧
      d.length = 40) ∧
    (∃ d, compute_checksum filename "SHA256" s =
        Res.ok (some d) { s with errorLevel := s.errorLevel + 2 } ∧
      d.length = 64) ∧
    (∃ d, compute_checksum filename "SHA512" s =
        Res.ok (some d) { s with errorLevel := s.errorLevel + 2 } ∧
      d.length = 128) := by
  refine
    ⟨⟨digestOf "MD5Sum" bs,
        compute_checksum_ok filename "MD5Sum" bs s hfs (by rw [hash_func_map_md5]; rfl), ?_⟩,
     ⟨digestOf "SHA1" bs,
        compute_checksum_ok filename "SHA1" bs s hfs (by rw [hash_func_map_sha1]; rfl), ?_⟩,
     ⟨digestOf "SHA256" bs,
        compute_checksum_ok filename "SHA256" bs s hfs (by rw [hash_func_map_sha256]; rfl), ?_⟩,
     ⟨digestOf "SHA512" bs,
        compute_checksum_ok filename "SHA512" bs s hfs (by rw [hash_func_map_sha512]; rfl), ?_⟩⟩
  · simp [digestOf, hash_func_map_md5, hexdigest_length, foldDigest_length]
  · simp [digestOf, hash_func_map_sha1, hexdigest_length, foldDigest_length]
  · simp [digestOf, hash_func_map_sha256, hexdigest_length, foldDigest_length]
  · simp [digestOf, hash_func_map_sha512, hexdigest_length, foldDigest_length]

/-- Witness for C8 on a concrete one-byte file. -/
theorem claim_C8_witness :
    ∃ d, compute_checksum "f" "MD5Sum" (initSt [("f", [0])]) =
        Res.ok (some d)
          { initSt [("f", [0])] with errorLevel := (initSt [("f", [0])]).errorLevel + 2 } ∧
      d.length = 32 :=
  (claim_C8 "f" [0] (initSt [("f", [0])]) (by decide)).1

/-- Claim C9: gzip_file writes the compression of the source file's bytes,
and decompressing the written bytes gives back exactly the source bytes. -/
theorem claim_C9 (source target : String) (bs : Bytes) (s : St)
    (h : readFS s source = some bs) :
    gzip_file source target s =
      Res.ok () (incr 1 (writeFS target (gzipCompress bs) s)) ∧
    readFS (incr 1 (writeFS target (gzipCompress bs) s)) target =
      some (gzipCompress bs) ∧
    gzipDecompress (gzipCompress bs) = some bs := by
  refine ⟨?_, ?_, ?_⟩
  · simp only [gzip_file, h]
  · exact readFS_writeFS_self target (gzipCompress bs) s
  · simp [gzipCompress, gzipDecompress]

/-- Witness for C9 on a concrete two-byte file. -/
theorem claim_C9_witness :
    gzip_file "a" "a.gz" (initSt [("a", [5, 6])]) =
      Res.ok ()
        (incr 1 (writeFS "a.gz" (gzipCompress [5, 6]) (initSt [("a", [5, 6])]))) ∧
    readFS (incr 1 (writeFS "a.gz" (gzipCompress [5, 6]) (initSt [("a", [5, 6])])))
      "a.gz" = some (gzipCompress [5, 6]) ∧
    gzipDecompress (gzipCompress [5, 6]) = some [5, 6] :=
  claim_C9 "a" "a.gz" [5, 6] (initSt [("a", [5, 6])]) (by decide)

/-- Claim C7: computing the full digest set twice over the unchanged bytes
of a file yields the same digest record both times — a deterministic
function of the file's bytes (`metaPure`), independent of the global error
counter advanced between the two runs. -/
theorem claim_C7 (filename : String) (bs : Bytes) (vars : Bindings) (s : St)
    (hfs : readFS s filename = some bs) :
    ∃ vars1 s1 vars2 s2,
      setup_variables_for_file filename vars s = Res.ok vars1 s1 ∧
      setup_variables_for_file filename vars1 s1 = Res.ok vars2 s2 ∧
      lookupA vars1 (basename filename) =
        some (VarVal.fileRec (metaPure bs)) ∧
      lookupA vars2 (basename filename) =
        some (VarVal.fileRec (metaPure bs)) :=
  ⟨_, _, _, _,
    setup_variables_for_file_ok filename bs vars s hfs,
    setup_variables_for_file_ok filename bs _ _ hfs,
    lookupA_insertA_self _ _ _,
    lookupA_insertA_self _ _ _⟩

/-- Witness for C7 on a concrete one-byte file. -/
theorem claim_C7_witness :
    ∃ vars1 s1 vars2 s2,
      setup_variables_for_file "x.deb" [] (initSt [("x.deb", [3])]) =
        Res.ok vars1 s1 ∧
      setup_variables_for_file "x.deb" vars1 s1 = Res.ok vars2 s2 ∧
      lookupA vars1 (basename "x.deb") =
        some (VarVal.fileRec (metaPure [3])) ∧
      lookupA vars2 (basename "x.deb") =
        some (VarVal.fileRec (metaPure [3])) :=
  claim_C7 "x.deb" [3] [] (initSt [("x.deb", [3])]) (by decide)

/-- Claim C4: invoking the signing step with an empty or absent key
identifier reports a fatal error and terminates the process with the current
unique exit code; the only event recorded is the error-stream message, so no
signing subprocess is spawned before termination. -/
theorem claim_C4 (gpg_key : Option String)
    (release_file inrelease_file : String) (gpgExit : Nat) (s : St)
    (hk : keyTruthy gpg_key = false) (hl : 20 ≤ s.errorLevel) :
    sign_release gpg_key release_file inrelease_file gpgExit s =
      Res.exited (s.errorLevel - 19)
        (logErr ("No GPG key can't sign " ++ release_file ++ ".") s) ∧
    ((logErr ("No GPG key can't sign " ++ release_file ++ ".") s).events.drop
        s.events.length).filter isSubproc = [] := by
  refine ⟨sign_release_falsy_key gpg_key release_file inrelease_file gpgExit s hk hl, ?_⟩
  simp [logErr, isSubproc]

/-- Witness for C4 with an absent key on the initial state. -/
theorem claim_C4_witness :
    sign_release none "Release" "InRelease" 0 (initSt []) =
      Res.exited 1 (logErr "No GPG key can't sign Release." (initSt [])) ∧
    ((logErr "No GPG key can't sign Release." (initSt [])).events.drop
        (initSt []).events.length).filter isSubproc = [] :=
  claim_C4 none "Release" "InRelease" 0 (initSt []) (by decide) (by decide)

/-- Claim C1 counterexample: a two-line template whose first line references
an undefined binding does not produce N−1 = 1 rendered lines with the run
continuing — the process terminates at the failing line with exit code 1 and
the output file holds zero rendered lines. -/
theorem claim_C1_counterexample :
    (process_template [("T", [TLine.scalar "" "missing", TLine.lit "ok"])]
        "T" "out" [] (initSt [])).code = some 1 ∧
    readFS (process_template [("T", [TLine.scalar "" "missing", TLine.lit "ok"])]
        "T" "out" [] (initSt [])).state "out" = some [] := by
  constructor
  · rfl
  · rfl

/-- Claim C1 (amended): a rendering failure on a template line is reported
and is fatal — the process terminates immediately with exit code
current_error_level − 19; the lines before the failing one are written to
the output file, and the failing line and all lines after it are not
rendered. -/
theorem claim_C1_amended (templates : Templates) (tname oname : String)
    (vars : Bindings) (pre : List TLine) (bad : TLine) (post : List TLine)
    (L : List String) (s : St)
    (ht : lookupA templates tname = some (pre ++ bad :: post))
    (hpre : renderAll vars pre = some L)
    (hbad : TLine.render bad vars = none)
    (hl : 20 ≤ s.errorLevel) :
    ∃ s', process_template templates tname oname vars s =
        Res.exited (s.errorLevel - 19) s' ∧
      readFS s' oname = some (linesToBytes L) ∧
      s'.events = s.events ++
        [Event.errOut ("Error processing line: " ++ toString (repr bad))] := by
  have h0 : readFS (writeFS oname [] s) oname = some [] :=
    readFS_writeFS_self oname [] s
  have hl0 : 20 ≤ (writeFS oname [] s).errorLevel := hl
  obtain ⟨s1, h1, h2, h3, h4⟩ :=
    processLines_aborts oname vars bad post hbad pre L (writeFS oname [] s)
      [] hpre h0 hl0
  refine ⟨s1, ?_, by simpa using h2, by rw [h3]; rfl⟩
  simp only [process_template, ht, h1, Res.andThen]
  rfl

/-- Witness for the amended C1: a concrete two-line template failing on the
second line renders the first line and exits with code 1. -/
theorem claim_C1_witness :
    ∃ s', process_template [("T", [TLine.lit "good", TLine.scalar "" "gone"])]
        "T" "out" [] (initSt []) = Res.exited 1 s' ∧
      readFS s' "out" = some (linesToBytes ["good"]) ∧
      s'.events = (initSt []).events ++
        [Event.errOut ("Error processing line: " ++
          toString (repr (TLine.scalar "" "gone")))] :=
  claim_C1_amended [("T", [TLine.lit "good", TLine.scalar "" "gone"])] "T"
    "out" [] [TLine.lit "good"] (TLine.scalar "" "gone") [] ["good"]
    (initSt []) (by decide) (by decide) (by decide) (by decide)

/-- Claim C5 counterexample: checksum setup over two files where the first
is absent does not continue to the second — the process terminates with exit
code 1 after reporting only the failing file. -/
theorem claim_C5_counterexample :
    (setup_variables_for_files ["missing.deb", "present.deb"] []
        (initSt [("present.deb", [1])])).code = some 1 ∧
    (setup_variables_for_files ["missing.deb", "present.deb"] []
        (initSt [("present.deb", [1])])).state.events =
      [Event.errOut "Error: File missing.deb not found!"] := by
  constructor
  · rfl
  · rfl

/-- Claim C5 (amended): a checksum-setup failure is reported attributed to
the failing file — the message names it — but it is fatal: the process
terminates with the current unique exit code and the remaining files (and
their remaining algorithms) are never computed. -/
theorem claim_C5_amended (f : String) (rest : List String) (vars : Bindings)
    (s : St) (hmiss : readFS s f = none) (hl : 20 ≤ s.errorLevel) :
    setup_variables_for_files (f :: rest) vars s =
      Res.exited (s.errorLevel - 19)
        (logErr ("Error: File " ++ f ++ " not found!") s) :=
  setup_variables_for_files_aborts f rest vars s hmiss hl

/-- Witness for the amended C5 at a concrete state. -/
theorem claim_C5_witness :
    setup_variables_for_files ["gone.deb", "here.deb"] []
        (initSt [("here.deb", [2])]) =
      Res.exited 1
        (logErr "Error: File gone.deb not found!" (initSt [("here.deb", [2])])) :=
  claim_C5_amended "gone.deb" ["here.deb"] [] (initSt [("here.deb", [2])])
    (by decide) (by decide)

/-- Claim C3 counterexample: a successful signing run over a concrete final
release descriptor invokes the external signing tool exactly once — not
twice — and writes only the clearsigned combined file; no detached signature
file is produced. -/
theorem claim_C3_counterexample :
    ((sign_release (some "KEY") "Release" "InRelease" 0
        (initSt [("Release", [82])])).state.events.countP isSubproc) = 1 ∧
    ¬ ((sign_release (some "KEY") "Release" "InRelease" 0
        (initSt [("Release", [82])])).state.events.countP isSubproc) = 2 ∧
    readFS (sign_release (some "KEY") "Release" "InRelease" 0
        (initSt [("Release", [82])])).state "Release.gpg" = none ∧
    (readFS (sign_release (some "KEY") "Release" "InRelease" 0
        (initSt [("Release", [82])])).state "InRelease").isSome = true := by
  refine ⟨?_, ?_, ?_, ?_⟩
  · rfl
  · decide
  · rfl
  · rfl

/-- Claim C3 (amended): a successful signing run invokes the external
signing tool exactly once, with clearsign arguments, producing the combined
InRelease file; no second (detached-signature) invocation occurs and the
only file written is the clearsigned one. -/
theorem claim_C3_amended (k : String)
    (release_file inrelease_file : String) (hk : k ≠ "") (s : St) :
    ∃ s', sign_release (some k) release_file inrelease_file 0 s =
        Res.ok () s' ∧
      s'.events = s.events ++
        [Event.msg Sev.info ("Signing " ++ release_file ++ "..."),
         Event.subproc ["gpg", "--default-key", k, "--clearsign", "-o",
           inrelease_file, release_file],
         Event.msg Sev.info ("Successfully signed " ++ release_file ++
           " into " ++ inrelease_file)] ∧
      ((s'.events.drop s.events.length).filter isSubproc).length = 1 ∧
      s'.fs = insertA inrelease_file
        (clearsignModel ((readFS s release_file).getD [])) s.fs := by
  refine ⟨_, sign_release_ok k release_file inrelease_file hk s, ?_, ?_, ?_⟩
  · simp [incr, increment_error_level, logMsg, logSub, writeFS, logErr]
  · simp [incr, increment_error_level, logMsg, logSub, writeFS, isSubproc]
  · rfl

/-- Witness for the amended C3 at a concrete descriptor and key. -/
theorem claim_C3_witness :
    ∃ s', sign_release (some "K") "R" "I" 0 (initSt [("R", [66])]) =
        Res.ok () s' ∧
      s'.events = (initSt [("R", [66])]).events ++
        [Event.msg Sev.info "Signing R...",
         Event.subproc ["gpg", "--default-key", "K", "--clearsign", "-o",
           "I", "R"],
         Event.msg Sev.info "Successfully signed R into I"] ∧
      ((s'.events.drop (initSt [("R", [66])]).events.length).filter
        isSubproc).length = 1 ∧
      s'.fs = insertA "I"
        (clearsignModel ((readFS (initSt [("R", [66])]) "R").getD []))
        (initSt [("R", [66])]).fs :=
  claim_C3_amended "K" "R" "I" (by decide) (initSt [("R", [66])])

/-- Claim C2 counterexample: a release template lacking Suite and Codename
fields yields, through a successful build_release_file run, a Release file
with zero `Suite: stable` and zero `Codename: stable` lines — the operation
appends no defaults. -/
theorem claim_C2_counterexample :
    countLine "Suite: stable"
      ((readFS (build_release_file
          [("T-Release", [TLine.lit "Origin: jump-start"])] "T-Release"
          "Release" "InRelease" ["Packages"] (some "KEY") 0 []
          (initSt [("Packages", [80])])).state "Release").getD []) = 0 ∧
    countLine "Codename: stable"
      ((readFS (build_release_file
          [("T-Release", [TLine.lit "Origin: jump-start"])] "T-Release"
          "Release" "InRelease" ["Packages"] (some "KEY") 0 []
          (initSt [("Packages", [80])])).state "Release").getD []) = 0 ∧
    (build_release_file
        [("T-Release", [TLine.lit "Origin: jump-start"])] "T-Release"
        "Release" "InRelease" ["Packages"] (some "KEY") 0 []
        (initSt [("Packages", [80])])).code = none := by
  refine ⟨?_, ?_, ?_⟩
  · rfl
  · rfl
  · rfl

/-- Claim C2 (amended): build_release_file performs no Suite/Codename
defaulting — the Release file's bytes are exactly the rendered template
lines, so a descriptor rendered from inputs lacking those fields still lacks
them; any such fields can only come from the template itself. -/
theorem claim_C2_amended (templates : Templates)
    (rtname release_file inrelease_file : String) (files : List String)
    (k : String) (vars : Bindings) (s : St) (rlines : List TLine)
    (L : List String)
    (hfiles : ∀ f ∈ files, ∃ bs, readFS s f = some bs)
    (ht : lookupA templates rtname = some rlines)
    (hr : ∀ vs : Bindings, renderAll vs rlines = some L)
    (hk : k ≠ "")
    (hne : release_file ≠ inrelease_file) :
    (build_release_file templates rtname release_file inrelease_file files
        (some k) 0 vars s).code = none ∧
    readFS (build_release_file templates rtname release_file inrelease_file
        files (some k) 0 vars s).state release_file =
      some (linesToBytes L) := by
  have hfiles0 : ∀ f ∈ files,
      ∃ bs, readFS (logMsg Sev.info ("Building " ++ release_file ++ "...") s)
        f = some bs := fun f hf => hfiles f hf
  obtain ⟨vars1, hsetup⟩ :=
    setup_variables_for_files_ok files vars
      (logMsg Sev.info ("Building " ++ release_file ++ "...") s) hfiles0
  obtain ⟨s2, hpt, hread2, hother2, hev2, hel2⟩ :=
    process_template_ok templates rtname release_file vars1 rlines L
      { (logMsg Sev.info ("Building " ++ release_file ++ "...") s) with
        errorLevel :=
          (logMsg Sev.info ("Building " ++ release_file ++ "...") s).errorLevel
            + 10 * files.length }
      ht (hr vars1)
  constructor
  · simp only [build_release_file, Res.andThen, display_message_info,
      hsetup, hpt, sign_release_ok k release_file inrelease_file hk, Res.code]
  · simp only [build_release_file, Res.andThen, display_message_info,
      hsetup, hpt, sign_release_ok k release_file inrelease_file hk, Res.state]
    simp only [readFS_incr, readFS_logMsg, readFS_logSub]
    rw [readFS_writeFS_ne inrelease_file release_file _ _ hne]
    simp only [readFS_logSub, readFS_logMsg, readFS_incr]
    exact hread2

/-- Witness for the amended C2: a concrete Suite-less template produces
exactly its own rendered line as the Release file. -/
theorem claim_C2_witness :
    (build_release_file [("T-Release", [TLine.lit "Origin: demo"])]
        "T-Release" "Release" "InRelease" ["Packages"] (some "K") 0 []
        (initSt [("Packages", [81])])).code = none ∧
    readFS (build_release_file [("T-Release", [TLine.lit "Origin: demo"])]
        "T-Release" "Release" "InRelease" ["Packages"] (some "K") 0 []
        (initSt [("Packages", [81])])).state "Release" =
      some (linesToBytes ["Origin: demo"]) :=
  claim_C2_amended [("T-Release", [TLine.lit "Origin: demo"])] "T-Release"
    "Release" "InRelease" ["Packages"] "K" [] (initSt [("Packages", [81])])
    [TLine.lit "Origin: demo"] ["Origin: demo"]
    (by intro f hf; exact ⟨[81], by simp at hf; rw [hf]; rfl⟩)
    (by decide) (fun vs => rfl) (by decide) (by decide)

/-- Claim C6 counterexample: the same logical error — the Packages template
missing — exits with code 13 when the build stage runs but with code 11 when
the caller skips it, so the exit code of a fixed error site depends on the
configuration flags. -/
theorem claim_C6_counterexample :
    (mainStages true [] "T-Packages" "Packages" "Packages.gz" "pkg.deb" 0 [9]
        [] (initSt [("pkg.deb", [7])])).code = some 13 ∧
    (mainStages false [] "T-Packages" "Packages" "Packages.gz" "pkg.deb" 0 [9]
        [] (initSt [("pkg.deb", [7])])).code = some 11 ∧
    (mainStages true [] "T-Packages" "Packages" "Packages.gz" "pkg.deb" 0 [9]
        [] (initSt [("pkg.deb", [7])])).code ≠
      (mainStages false [] "T-Packages" "Packages" "Packages.gz" "pkg.deb" 0
        [9] [] (initSt [("pkg.deb", [7])])).code := by
  refine ⟨?_, ?_, ?_⟩
  · rfl
  · rfl
  · decide

/-- Claim C6 (amended): fatal conditions exit with codes minted from the
running counter, which advances with the code that actually executes —
running the build stage advances it by two — so the same error site (here a
missing Packages template) maps to exit code counter + 12 − 19 with the
build stage and counter + 10 − 19 without it: the code is unique per site
within one configuration but differs across configuration flags. -/
theorem claim_C6_amended (templates : Templates) (pt pf pgz deb : String)
    (o bs : Bytes) (vars : Bindings) (s : St)
    (hdeb : readFS s deb = some bs)
    (ht : lookupA templates pt = none)
    (hl : 20 ≤ s.errorLevel) :
    (mainStages true templates pt pf pgz deb 0 o vars s).code =
      some (s.errorLevel + 12 - 19) ∧
    (mainStages false templates pt pf pgz deb 0 o vars s).code =
      some (s.errorLevel + 10 - 19) ∧
    (mainStages true templates pt pf pgz deb 0 o vars s).code ≠
      (mainStages false templates pt pf pgz deb 0 o vars s).code := by
  have hdeb0 : readFS (logMsg Sev.info "Building Package..." s) deb = some bs :=
    hdeb
  obtain ⟨s1, h1, h2, h3⟩ :=
    build_debian_package_ok_ex deb o bs (logMsg Sev.info "Building Package..." s)
      hdeb0
  have h3' : s1.errorLevel = s.errorLevel + 2 := h3
  have hcodeT : (mainStages true templates pt pf pgz deb 0 o vars s).code =
      some (s.errorLevel + 12 - 19) := by
    have hbuild := build_package_file_no_template templates pt pf pgz deb vars
      s1 o h2 ht (by omega)
    simp only [mainStages, Res.andThen, display_message_info]
    rw [if_pos trivial]
    simp only [h1]
    rw [hbuild, h3']
  have hcodeF : (mainStages false templates pt pf pgz deb 0 o vars s).code =
      some (s.errorLevel + 10 - 19) := by
    have hbuild := build_package_file_no_template templates pt pf pgz deb vars
      (logMsg Sev.info "Building Package..." s) bs hdeb0 ht hl
    simp only [mainStages, Res.andThen, display_message_info]
    rw [if_neg (by decide)]
    rw [hbuild]
    rfl
  refine ⟨hcodeT, hcodeF, ?_⟩
  rw [hcodeT, hcodeF]
  simp only [ne_eq, Option.some.injEq]
  omega

/-- Witness for the amended C6 at a concrete state with counter 20:
codes 13 and 11. -/
theorem claim_C6_witness :
    (mainStages true [] "T2-Packages" "P" "P.gz" "a.deb" 0 [4] []
        (initSt [("a.deb", [5])])).code = some (20 + 12 - 19) ∧
    (mainStages false [] "T2-Packages" "P" "P.gz" "a.deb" 0 [4] []
        (initSt [("a.deb", [5])])).code = some (20 + 10 - 19) ∧
    (mainStages true [] "T2-Packages" "P" "P.gz" "a.deb" 0 [4] []
        (initSt [("a.deb", [5])])).code ≠
      (mainStages false [] "T2-Packages" "P" "P.gz" "a.deb" 0 [4] []
        (initSt [("a.deb", [5])])).code :=
  claim_C6_amended [] "T2-Packages" "P" "P.gz" "a.deb" [4] [5] []
    (initSt [("a.deb", [5])]) (by decide) (by decide) (by decide)

end BuildScript
